import Mathlib

/-!
Shallow embedding of `src/script.js` (Lesson Plan Generator) and proofs of
the specification claims about it.

The JavaScript file defines pure string-building functions
(`generatePlan`, `generateKidFriendlyObjective`, `generateKidFriendlyProduct`,
`getReadingDetails`, `getMathDetails`) and a form-submit handler that calls
them and writes the result into the page.  Every function is embedded below
as a total Lean function on records of `String`s, following the source text
line by line.  JavaScript string truthiness (`s` is truthy iff `s !== ""`),
`||`/`&&` on strings, `String.prototype.replace` with a string pattern
(first occurrence only; the replacement strings used contain no `$`),
`toLowerCase` and `trim` are modelled by the `js*` helpers.
-/

namespace LessonPlanApp

/-- JavaScript truthiness of a string: every string except `""` is truthy. -/
def truthy (s : String) : Bool := s != ""

/-- JavaScript `a || b` on strings: `a` when `a` is truthy, else `b`. -/
def jsOr (a b : String) : String := if truthy a then a else b

/-- JavaScript `a && b` on strings: `b` when `a` is truthy, else `a`. -/
def jsAnd (a b : String) : String := if truthy a then b else a

/-- JavaScript `String.prototype.toLowerCase`, character by character
(the inputs of interest are ASCII TEKS codes such as `"3.4A"`). -/
def jsToLowerCase (s : String) : String := ⟨s.data.map Char.toLower⟩

/-- JavaScript `String.prototype.trim`: strip leading and trailing
whitespace characters. -/
def jsTrim (s : String) : String :=
  ⟨((s.data.dropWhile Char.isWhitespace).reverse.dropWhile Char.isWhitespace).reverse⟩

/-- Replace the first occurrence of `pat` by `rep` in a character list;
the rest of the list is kept unchanged.  This is JavaScript
`s.replace(pat, rep)` for a string pattern (which replaces only the first
occurrence; none of the replacement strings used in the program contain
the special `$` escapes). -/
def replaceFirstAux (pat rep : List Char) : List Char → List Char
  | [] => if pat.isEmpty then rep else []
  | c :: cs =>
    if pat.isPrefixOf (c :: cs) then rep ++ (c :: cs).drop pat.length
    else c :: replaceFirstAux pat rep cs

/-- JavaScript `s.replace(pat, rep)` for a plain string pattern. -/
def jsReplace (s pat rep : String) : String :=
  ⟨replaceFirstAux pat.data rep.data s.data⟩

/-- The substring relation on strings: `pat` occurs contiguously in `s`. -/
def Substr (pat s : String) : Prop := pat.data <:+: s.data

instance (pat s : String) : Decidable (Substr pat s) :=
  List.decidableInfix pat.data s.data

/-- The string `s` starts with the literal text `p`. -/
def BeginsWith (p s : String) : Prop := ∃ t : String, s = p ++ t

/-- Executable substring check on character lists (used to evaluate
`Substr` on concrete data without deep `Decidable` terms). -/
def containsB (pat : List Char) : List Char → Bool
  | [] => pat.isEmpty
  | c :: cs => pat.isPrefixOf (c :: cs) || containsB pat cs

/-- The characters of the concatenation of a list of strings. -/
def chunkData : List String → List Char
  | [] => []
  | s :: rest => s.data ++ chunkData rest

/-- Chunk-wise absence check: `pat` occurs nowhere in the concatenation of
`l` provided it occurs in no chunk extended by a `pat.length - 1` character
lookahead into the remaining chunks.  Keeps every kernel evaluation at the
size of one chunk. -/
def noSubstrChunks (pat : List Char) : List String → Bool
  | [] => true
  | s :: rest =>
    !(containsB pat (s.data ++ (chunkData rest).take (pat.length - 1))) &&
      noSubstrChunks pat rest

/-- The transient record destructured by `generateKidFriendlyObjective` and
`generateKidFriendlyProduct`: `{ program, subject, unit, lesson, standard }`.
All fields are free-form strings coming from the form. -/
structure LessonRequest where
  program : String
  subject : String
  unit : String
  lesson : String
  standard : String

/-- The object literal returned by `getReadingDetails` / `getMathDetails`. -/
structure SubjectDetails where
  activities : String

/-- Source `getReadingDetails` (src/script.js lines 304-316): fixed
reading activity recommendations. -/
def getReadingDetails : SubjectDetails :=
  { activities := "
      <p><strong>Amplify Reading Integration:</strong> Create reading stations using Amplify’s adaptive games to target foundational skills. For example:</p>
      <ul>
        <li><em>Phonological awareness:</em> Use games like <strong>Cut It Out</strong> or <strong>Gem &amp; Nye</strong> where students isolate and blend sounds; these align with standards such as CCSS.ELA-LITERACY.RF.K.2.D【597195531784893†L350-L368】.</li>
        <li><em>Phonics decoding:</em> Use <strong>Curioso Crossing</strong> or <strong>Food Truck</strong> to practice reading high‑frequency words, decoding multi‑syllabic words, and spelling patterns【597195531784893†L424-L456】.</li>
        <li><em>Comprehension:</em> After reading a story in Amplify’s eReader, have students discuss characters and events, then write about the main idea or create graphic organizers.</li>
      </ul>
      <p>Include read‑alouds and guided practice to model fluent reading. Encourage students to set reading goals and self‑monitor their progress, aligning with T‑TESS expectations of goal‑setting and self‑regulation【465862501687436†L446-L468】.</p>
    " }

/-- Source `getMathDetails` (src/script.js lines 321-333): fixed math
activity recommendations. -/
def getMathDetails : SubjectDetails :=
  { activities := "
      <p><strong>Bluebonnet Math Integration:</strong> Design lessons around the TEKS readiness standards using Bluebonnet Learning materials. Key features include routines, models, digital tools, and student agency【885786470742668†L124-L130】.</p>
      <ul>
        <li>Begin with a concrete experience using manipulatives or visual models from Bluebonnet’s margin notes, then transition to pictorial and abstract representations.</li>
        <li>Use problem‑based learning tasks that promote reasoning and perseverance. Encourage students to explain their thinking and connect concepts horizontally and vertically across grade levels【885786470742668†L194-L206】.</li>
        <li>Incorporate digital assessments from Bluebonnet’s platform to provide immediate feedback and prepare students for STAAR‑aligned questions【885786470742668†L174-L176】.</li>
      </ul>
      <p>Promote student ownership by having students set math goals and monitor their progress. Provide opportunities for peer teaching and collaborative problem solving.</p>
    " }

/-- Source `generateKidFriendlyObjective` (src/script.js lines 339-353). -/
def generateKidFriendlyObjective (r : LessonRequest) : String :=
  let prog := jsOr r.program (if r.subject = "Reading" then "Amplify" else "Bluebonnet")
  let unitLessonPart := if truthy r.unit then "" ++ ("Unit " ++ r.unit) else ""
  let unitLessonPart :=
    if truthy r.lesson then
      unitLessonPart ++ (if truthy unitLessonPart then ", Lesson " ++ r.lesson else "Lesson " ++ r.lesson)
    else unitLessonPart
  let skillPhrase := if r.subject = "Reading" then "our reading skills" else "our math skills"
  let conceptPart := if truthy r.standard then " about " ++ jsToLowerCase r.standard else ""
  let objective := "We will explore " ++ jsOr unitLessonPart "our lesson" ++ " from the " ++
    prog ++ " " ++ r.subject ++ " program" ++ conceptPart ++ " to develop " ++ skillPhrase ++ "."
  objective

/-- Source `generateKidFriendlyProduct` (src/script.js lines 359-364). -/
def generateKidFriendlyProduct (r : LessonRequest) : String :=
  let prog := jsOr r.program (if r.subject = "Reading" then "Amplify" else "Bluebonnet")
  let action := if r.subject = "Reading" then "reading stories and playing learning games"
    else "solving problems and explaining our thinking"
  let product := "I will show what I learned in " ++ prog ++ " by " ++ action ++ "."
  product

/-- The record passed to `generatePlan` by the submit handler:
`{ grade, subject, standard, objective, product, program, unit, lesson }`. -/
structure PlanData where
  grade : String
  subject : String
  standard : String
  objective : String
  product : String
  program : String
  unit : String
  lesson : String

/-- Source src/script.js line 76: the `unitLessonDisplay` constant of
`generatePlan`, hoisted to a function of the `unit` and `lesson` fields. -/
def unitLessonDisplay (unit lesson : String) : String :=
  if truthy (jsOr unit lesson) then
    jsOr unit "" ++ (if truthy (jsAnd unit lesson) then "/" else "") ++ jsOr lesson ""
  else ""

/-- Source lines 80-90: the `infoSection` template of `generatePlan`,
hoisted to a function of the interpolated values. -/
def infoSection (grade subject uld standardDisplay : String) : String :=
  "
    <h2>Section 1 — Lesson Information</h2>
    <table style=\"width:100%; border-collapse: collapse;\">
      <tr><td style=\"font-weight:bold; width:30%;\">Teacher</td><td>__________________________</td></tr>
      <tr><td style=\"font-weight:bold;\">Grade / Subject</td><td>" ++ jsOr grade "K–2" ++ " " ++ subject ++ "</td></tr>
      <tr><td style=\"font-weight:bold;\">Lesson Date</td><td>__________________________</td></tr>
      <tr><td style=\"font-weight:bold;\">Unit / Lesson #</td><td>" ++ jsOr uld "___/___" ++ "</td></tr>
      <tr><td style=\"font-weight:bold;\">TEKS</td><td>" ++ jsOr standardDisplay "__________________________" ++ "</td></tr>
      <tr><td style=\"font-weight:bold;\">Lesson Duration</td><td>__________________________</td></tr>
    </table>
  "

/-- Source lines 93-103: the `successCriteria` array of `generatePlan`. -/
def successCriteria (subject : String) : List String :=
  if subject = "Reading" then
    ["Use phonological or phonics skills (e.g., blend and segment sounds, decode high‑frequency words).",
     "Demonstrate comprehension by answering text‑dependent questions and summarizing key ideas.",
     "Apply new vocabulary in speaking and writing activities."]
  else
    ["Demonstrate conceptual understanding by solving problems using appropriate strategies or models.",
     "Explain mathematical reasoning verbally or in writing.",
     "Apply new vocabulary and use manipulatives or visuals to justify solutions."]

/-- Source lines 104-112: the `objSection` template of `generatePlan`. -/
def objSection (objective subject : String) : String :=
  "
    <h2>Section 2 — Objective, Learning Goals & Success Criteria</h2>
    <p><strong>Lesson Objective:</strong> " ++ jsReplace objective "We will" "Students will" ++ " (include decoding, comprehension, vocabulary, skills as appropriate).</p>
    <p><strong>Student‑Friendly Learning Goal:</strong> \"" ++ jsReplace objective "We will" "Today I will" ++ "\"</p>
    <p><strong>Success Criteria (Distinguished):</strong></p>
    <ul>
      " ++ String.join ((successCriteria subject).map (fun c => "<li>" ++ c ++ "</li>")) ++ "
    </ul>
  "

/-- Source lines 115-127: the `assessmentSection` template of `generatePlan`. -/
def assessmentSection (subject : String) : String :=
  "
    <h2>Section 3 — Formative Assessment & Exit Ticket</h2>
    <p><strong>Checks for Understanding Throughout Lesson:</strong></p>
    <ul style=\"list-style-type:none;\">
      <li><input type=\"checkbox\"/> Whiteboard responses</li>
      <li><input type=\"checkbox\"/> Turn & Talk</li>
      <li><input type=\"checkbox\"/> Cold call</li>
      <li><input type=\"checkbox\"/> Partner reading checks</li>
      " ++ (if subject = "Reading" then "<li><input type=\"checkbox\"/> Choral read accuracy</li>" else "") ++ "
      <li><input type=\"checkbox\"/> Vocabulary application</li>
    </ul>
    <p><strong>Exit Ticket:</strong> _________________________________________________</p>
  "

/-- Source lines 130-141: the `materialsSection` template of `generatePlan`. -/
def materialsSection (program subject : String) : String :=
  "
    <h2>Section 4 — Materials & Resources</h2>
    <ul>
      <li>" ++ program ++ " Teacher Guide / Slides</li>
      " ++ (if subject = "Reading" then "<li>Vocabulary Cards</li><li>Decodables / Knowledge Text</li>" else "<li>Manipulatives / Math Tools</li><li>Eureka Math/Bluebonnet Materials</li>") ++ "
      <li>Whiteboards / Markers</li>
      <li>Anchor Charts</li>
      <li>PAX GBG Team Board</li>
      <li>Fundamental Five Frame‑the‑Lesson Board</li>
      <li>Other: _____________________________________</li>
    </ul>
  "

/-- Source lines 144-162: the `cultureSection` template of `generatePlan`
(no interpolation). -/
def cultureSection : String :=
  "
    <h2>Section 5 — Classroom Culture (PAX + Fundamental Five)</h2>
    <table style=\"width:100%; border-collapse: collapse;\">
      <tr><td style=\"font-weight:bold; width:30%;\">PAX Vision for Lesson</td><td>More of: ________ | Less of: ________</td></tr>
      <tr><td style=\"font-weight:bold;\">PAX Signals & Routines</td><td>Harmonicas, PAX Quiet, PAX Hands/Eyes/Heart</td></tr>
      <tr><td style=\"font-weight:bold;\">Good Behavior Game Rounds</td><td>
        <label><input type=\"checkbox\"/> Whole Group Reading / Instruction</label>
        <label><input type=\"checkbox\"/> Partner Work</label>
        <label><input type=\"checkbox\"/> Independent Practice</label>
      </td></tr>
      <tr><td style=\"font-weight:bold;\">PAX Kernels</td><td>
        <label><input type=\"checkbox\"/> Tootles</label>
        <label><input type=\"checkbox\"/> Beat the Timer</label>
        <label><input type=\"checkbox\"/> Random Sticks</label>
        <label><input type=\"checkbox\"/> Wacky Prizes</label>
      </td></tr>
      <tr><td style=\"font-weight:bold;\">Fundamental Five Elements</td><td>Frame the Lesson, Power Zone, Frequent Talk, Recognize & Reinforce, Critical Writing</td></tr>
    </table>
  "

/-- Source lines 165-176: the `frameSection` template of `generatePlan`.
JavaScript `successCriteria[0]` is rendered here as `List.getD _ 0 \"\"`,
which returns the same first element on the three-element arrays above. -/
def frameSection (objective subject : String) : String :=
  "
    <h2>Section 6 — Lesson Frame (Fundamental Five)</h2>
    <table style=\"width:100%; border-collapse: collapse;\">
      <tr><td style=\"font-weight:bold; width:30%;\">Frame the Lesson (Beginning)</td><td>
        <p><strong>Today we will...</strong> " ++ jsTrim (jsReplace objective "We will" "") ++ ".</p>
        <p><strong>You will know you are successful when...</strong> " ++ (successCriteria subject).getD 0 "" ++ "</p>
      </td></tr>
      <tr><td style=\"font-weight:bold;\">Frame the Lesson (End)</td><td>
        <p>Review the objective and success criteria. Provide a reflective prompt or exit question for students to connect learning back to the goal.</p>
      </td></tr>
    </table>
  "

/-- Source lines 179-228: the `proceduresSection` template of `generatePlan`. -/
def proceduresSection (program subject : String) : String :=
  "
    <h2>Section 7 — Lesson Procedures (" ++ program ++ " + TTESS Distinguished)</h2>
    <h3>A. Opening Routine (3–5 min)</h3>
    <ul>
      <li>PAX Quiet signal and attention getter</li>
      <li>Review objective and success criteria with students</li>
      <li>Engage prior knowledge or connection to previous lesson</li>
    </ul>
    <h3>B. Vocabulary & Knowledge Building (5–8 min)</h3>
    <ul>
      <li>Introduce new vocabulary with student‑friendly definitions</li>
      <li>Use gestures, images or realia to reinforce understanding</li>
      <li>Have students Turn & Talk using the vocabulary in context</li>
      <li>Begin a PAX GBG mini‑round to reinforce focus and cooperation</li>
    </ul>
    <h3>C. " ++ (if subject = "Reading" then "Read‑Aloud / Decodable Reading" else "Concept Instruction / Guided Practice") ++ " (10–15 min)</h3>
    <ul>
      <li>Teacher modeling of " ++ (if subject = "Reading" then "fluency and comprehension strategies" else "mathematical concept or problem‑solving strategy") ++ "</li>
      <li>Pose text‑dependent or concept questions to check understanding</li>
      <li>Incorporate Turn & Talk and other CFUs (Cold call, whiteboard responses)</li>
      <li>Record student evidence responses to gauge progress</li>
    </ul>
    <h3>D. Skills Practice / Word Work (10–12 min)</h3>
    <ul>
      " ++ (if subject = "Reading"
        then "<li>Blending and segmenting sounds; dictation or spelling patterns</li><li>Small‑group adjustments based on student needs</li><li>PAX reinforcement (e.g., tootles)</li>"
        else "<li>Problem sets using manipulatives; fact fluency games</li><li>Small‑group adjustments to differentiate for skill levels</li><li>PAX reinforcement for on‑task math discussion</li>") ++ "
    </ul>
    <h3>E. Partner Practice (5–8 min)</h3>
    <ul>
      <li>Students engage in purposeful talk tasks</li>
      <li>" ++ (if subject = "Reading" then "Rereading, retelling or comprehension tasks" else "Pair‑problem solving and explanation") ++ "</li>
      <li>Conduct GBG mini‑round #2 to maintain focus</li>
    </ul>
    <h3>F. Independent Practice / Stations (8–12 min)</h3>
    <p>Set up stations with tasks aligned to the lesson objective:</p>
    <ul>
      " ++ (if subject = "Reading"
        then "<li>Station 1: Decodable practice using Amplify games</li><li>Station 2: Vocabulary activity or graphic organizer</li><li>Station 3: Writing response to reading</li>"
        else "<li>Station 1: Problem solving with manipulatives</li><li>Station 2: Math games (e.g., number bonds, math facts)</li><li>Station 3: Application problems using Bluebonnet digital tools</li>") ++ "
      <li>Teacher small‑group: Provide guided instruction and feedback to targeted learners</li>
    </ul>
    <h3>G. Closure & Exit Ticket (5 min)</h3>
    <ul>
      <li>Review the learning goal and success criteria</li>
      <li>Ask students to reflect on how they met the goal; incorporate FSGPT</li>
      <li>Administer exit ticket aligned to the objective</li>
      <li>Celebrate with PAX tootles or quick recognition</li>
    </ul>
  "

/-- Source lines 231-240: the `differentiationSection` template (no
interpolation). -/
def differentiationSection : String :=
  "
    <h2>Section 8 — Differentiation</h2>
    <table style=\"width:100%; border-collapse: collapse;\">
      <tr><th style=\"text-align:left; width:30%;\">Student Group</th><th style=\"text-align:left;\">Supports Planned</th></tr>
      <tr><td>Struggling Learners</td><td>Provide concrete supports (e.g., manipulatives, additional phonics practice), scaffolded questioning, and more frequent check‑ins.</td></tr>
      <tr><td>On‑Level Learners</td><td>Offer guided practice with gradual release, peer collaboration, and feedback opportunities.</td></tr>
      <tr><td>Advanced Learners</td><td>Challenge with extension tasks, open‑ended problems or enrichment texts, and opportunities to teach peers.</td></tr>
      <tr><td>Students Needing Behavior Support</td><td>Use PAX kernels and clear expectations, positive recognition, and structured choices to encourage engagement.</td></tr>
    </table>
  "

/-- Source lines 243-253: the `reflectionSection` template (no
interpolation). -/
def reflectionSection : String :=
  "
    <h2>Section 9 — Teacher Reflection (Distinguished Requirement)</h2>
    <p>After the lesson, reflect on the following prompts. Document your responses in the space provided:</p>
    <ul>
      <li>What evidence showed mastery?</li>
      <li>What misunderstandings appeared?</li>
      <li>How will I adjust instruction tomorrow?</li>
      <li>How did PAX & Fundamental Five improve engagement?</li>
    </ul>
    <p>Notes: ________________________________________________</p>
  "

/-- Source lines 256-264: the `adminSection` template (no interpolation). -/
def adminSection : String :=
  "
    <h2>Section 10 — Administrator Look‑Fors (Distinguished Alignment)</h2>
    <p>This lesson is designed to produce evidence in:</p>
    <ul>
      <li><strong>Domain 1 (Planning)</strong>: alignment to TEKS/standards, intentional strategies, differentiation for varied learners.</li>
      <li><strong>Domain 2 (Instruction)</strong>: student engagement, effective questioning, checks for understanding, student thinking and discourse.</li>
      <li><strong>Domain 3 (Classroom Culture)</strong>: PAX routines and kernels, respectful interactions, classroom management, joy in learning.</li>
    </ul>
  "

/-- Source lines 267-280: the `internalizationGuide` template (no
interpolation). -/
def internalizationGuide : String :=
  "
    <h2>Lesson Internalization Guide</h2>
    <p>Prior to teaching, use this guide to internalize the lesson:</p>
    <ul>
      <li><strong>Key Concepts & Vocabulary:</strong> Identify essential ideas and words students must understand.</li>
      <li><strong>Anticipated Misconceptions:</strong> What errors or misunderstandings might occur? Plan strategies to address them.</li>
      <li><strong>Differentiation & Scaffolds:</strong> How will you adjust for struggling and advanced learners? What supports will you provide?</li>
      <li><strong>Cross‑Curricular Connections:</strong> How does this lesson connect to other subjects or real‑world experiences?</li>
      <li><strong>Fundamental Five Strategies:</strong> Plan for framing the lesson, positioning in the power zone, frequent purposeful talk, recognition and reinforcement, and critical writing.</li>
      <li><strong>PAX Integration:</strong> How will you use PAX GBG rounds and kernels to support a positive culture?</li>
      <li><strong>Assessment & Evidence:</strong> What specific evidence will show that students met the success criteria?</li>
    </ul>
    <p><em>Use these prompts to jot down notes and ensure you are fully prepared for high‑quality instruction.</em></p>
  "

/-- Source `generatePlan` (src/script.js lines 56-299).  The local section
constants of the JavaScript function are the hoisted section functions
above, applied to exactly the values the source interpolates; the unused
locals (`subjectDetails`, destructured `product`) are kept as unused
`let`-bindings, as in the source. -/
def generatePlan (data : PlanData) : String :=
  let grade := data.grade
  let subject := data.subject
  let standard := data.standard
  let objective := data.objective
  let product := data.product
  let program := data.program
  let unit := data.unit
  let lesson := data.lesson
  let subjectDetails := if subject = "Reading" then getReadingDetails else getMathDetails
  let standardDisplay := if truthy standard then standard else ""
  let uld := unitLessonDisplay unit lesson
  "
    <h2>Overview</h2>
    <p><strong>Grade:</strong> " ++ grade ++ " | <strong>Subject:</strong> " ++ subject ++
    " | <strong>Program:</strong> " ++ program ++ " | <strong>Unit/Lesson:</strong> " ++ jsOr uld "-" ++
    (if truthy standardDisplay then " | <strong>Standard/Concept:</strong> " ++ standardDisplay else "") ++ "</p>
    " ++ infoSection grade subject uld standardDisplay ++ "
    " ++ objSection objective subject ++ "
    " ++ assessmentSection subject ++ "
    " ++ materialsSection program subject ++ "
    " ++ cultureSection ++ "
    " ++ frameSection objective subject ++ "
    " ++ proceduresSection program subject ++ "
    " ++ differentiationSection ++ "
    " ++ reflectionSection ++ "
    " ++ adminSection ++ "
    " ++ internalizationGuide ++ "
  "

/-- The body of `generatePlan` with the dead `subjectDetails` computation
(source line 60) removed; used to compare against `generatePlan` for the
refinement claim that the computation does not influence the output. -/
def generatePlanNoDetails (data : PlanData) : String :=
  let grade := data.grade
  let subject := data.subject
  let standard := data.standard
  let objective := data.objective
  let program := data.program
  let unit := data.unit
  let lesson := data.lesson
  let standardDisplay := if truthy standard then standard else ""
  let uld := unitLessonDisplay unit lesson
  "
    <h2>Overview</h2>
    <p><strong>Grade:</strong> " ++ grade ++ " | <strong>Subject:</strong> " ++ subject ++
    " | <strong>Program:</strong> " ++ program ++ " | <strong>Unit/Lesson:</strong> " ++ jsOr uld "-" ++
    (if truthy standardDisplay then " | <strong>Standard/Concept:</strong> " ++ standardDisplay else "") ++ "</p>
    " ++ infoSection grade subject uld standardDisplay ++ "
    " ++ objSection objective subject ++ "
    " ++ assessmentSection subject ++ "
    " ++ materialsSection program subject ++ "
    " ++ cultureSection ++ "
    " ++ frameSection objective subject ++ "
    " ++ proceduresSection program subject ++ "
    " ++ differentiationSection ++ "
    " ++ reflectionSection ++ "
    " ++ adminSection ++ "
    " ++ internalizationGuide ++ "
  "

/-- The values of the six named form fields read by the submit handler. -/
structure FormInput where
  grade : String
  subject : String
  program : String
  unit : String
  lesson : String
  standard : String

/-- Source lines 20-31 of the submit handler: read the fields (trimming
`standard`), auto-generate the kid-friendly objective and product, and
build the plan HTML. -/
def submittedPlanHtml (f : FormInput) : String :=
  let grade := f.grade
  let subject := f.subject
  let program := f.program
  let unit := f.unit
  let lesson := f.lesson
  let standard := jsTrim f.standard
  let objective := generateKidFriendlyObjective ⟨program, subject, unit, lesson, standard⟩
  let product := generateKidFriendlyProduct ⟨program, subject, unit, lesson, standard⟩
  generatePlan ⟨grade, subject, standard, objective, product, program, unit, lesson⟩

/-- The page state touched by the submit handler: the display container's
content and CSS display, the print action's CSS display, and an abstract
remainder `other` standing for every other piece of page state. -/
structure PageState (σ : Type) where
  outputInnerHTML : String
  outputDisplay : String
  printBtnDisplay : String
  other : σ

/-- Source lines 18-35: the form-submit handler.  It renders the plan once
and updates exactly the three DOM locations of the source (`output.innerHTML`,
`output.style.display`, `printBtn.style.display`). -/
def onSubmit {σ : Type} (f : FormInput) (st : PageState σ) : PageState σ :=
  { st with
    outputInnerHTML := submittedPlanHtml f
    outputDisplay := "block"
    printBtnDisplay := "inline-block" }

/-- The output of `generatePlan` flattened into its sequence of leaf pieces
(literal fragments and interpolated values, in rendering order).  The
theorem `generatePlan_data_eq` proves that concatenating these pieces is
exactly `generatePlan`; the chunk-wise checker `noSubstrChunks` then
decides substring absence one piece at a time. -/
def planPieces (d : PlanData) : List String :=
  let sd := if truthy d.standard then d.standard else ""
  let uld := unitLessonDisplay d.unit d.lesson
  [ "
    <h2>Overview</h2>
    <p><strong>Grade:</strong> ", d.grade, " | <strong>Subject:</strong> ", d.subject,
    " | <strong>Program:</strong> ", d.program, " | <strong>Unit/Lesson:</strong> ", jsOr uld "-",
    (if truthy sd then " | <strong>Standard/Concept:</strong> " ++ sd else ""), "</p>
    ",
    -- infoSection
    "
    <h2>Section 1 — Lesson Information</h2>
    <table style=\"width:100%; border-collapse: collapse;\">
      <tr><td style=\"font-weight:bold; width:30%;\">Teacher</td><td>__________________________</td></tr>
      <tr><td style=\"font-weight:bold;\">Grade / Subject</td><td>", jsOr d.grade "K–2", " ", d.subject,
    "</td></tr>
      <tr><td style=\"font-weight:bold;\">Lesson Date</td><td>__________________________</td></tr>
      <tr><td style=\"font-weight:bold;\">Unit / Lesson #</td><td>", jsOr uld "___/___",
    "</td></tr>
      <tr><td style=\"font-weight:bold;\">TEKS</td><td>", jsOr sd "__________________________",
    "</td></tr>
      <tr><td style=\"font-weight:bold;\">Lesson Duration</td><td>__________________________</td></tr>
    </table>
  ", "
    ",
    -- objSection
    "
    <h2>Section 2 — Objective, Learning Goals & Success Criteria</h2>
    <p><strong>Lesson Objective:</strong> ", jsReplace d.objective "We will" "Students will",
    " (include decoding, comprehension, vocabulary, skills as appropriate).</p>
    <p><strong>Student‑Friendly Learning Goal:</strong> \"", jsReplace d.objective "We will" "Today I will",
    "\"</p>
    <p><strong>Success Criteria (Distinguished):</strong></p>
    <ul>
      ", String.join ((successCriteria d.subject).map (fun c => "<li>" ++ c ++ "</li>")),
    "
    </ul>
  ", "
    ",
    -- assessmentSection
    "
    <h2>Section 3 — Formative Assessment & Exit Ticket</h2>
    <p><strong>Checks for Understanding Throughout Lesson:</strong></p>
    <ul style=\"list-style-type:none;\">
      <li><input type=\"checkbox\"/> Whiteboard responses</li>
      <li><input type=\"checkbox\"/> Turn & Talk</li>
      <li><input type=\"checkbox\"/> Cold call</li>
      <li><input type=\"checkbox\"/> Partner reading checks</li>
      ", (if d.subject = "Reading" then "<li><input type=\"checkbox\"/> Choral read accuracy</li>" else ""),
    "
      <li><input type=\"checkbox\"/> Vocabulary application</li>
    </ul>
    <p><strong>Exit Ticket:</strong> _________________________________________________</p>
  ", "
    ",
    -- materialsSection
    "
    <h2>Section 4 — Materials & Resources</h2>
    <ul>
      <li>", d.program, " Teacher Guide / Slides</li>
      ",
    (if d.subject = "Reading" then "<li>Vocabulary Cards</li><li>Decodables / Knowledge Text</li>" else "<li>Manipulatives / Math Tools</li><li>Eureka Math/Bluebonnet Materials</li>"),
    "
      <li>Whiteboards / Markers</li>
      <li>Anchor Charts</li>
      <li>PAX GBG Team Board</li>
      <li>Fundamental Five Frame‑the‑Lesson Board</li>
      <li>Other: _____________________________________</li>
    </ul>
  ", "
    ",
    cultureSection, "
    ",
    -- frameSection
    "
    <h2>Section 6 — Lesson Frame (Fundamental Five)</h2>
    <table style=\"width:100%; border-collapse: collapse;\">
      <tr><td style=\"font-weight:bold; width:30%;\">Frame the Lesson (Beginning)</td><td>
        <p><strong>Today we will...</strong> ", jsTrim (jsReplace d.objective "We will" ""),
    ".</p>
        <p><strong>You will know you are successful when...</strong> ", (successCriteria d.subject).getD 0 "",
    "</p>
      </td></tr>
      <tr><td style=\"font-weight:bold;\">Frame the Lesson (End)</td><td>
        <p>Review the objective and success criteria. Provide a reflective prompt or exit question for students to connect learning back to the goal.</p>
      </td></tr>
    </table>
  ", "
    ",
    -- proceduresSection
    "
    <h2>Section 7 — Lesson Procedures (", d.program,
    " + TTESS Distinguished)</h2>
    <h3>A. Opening Routine (3–5 min)</h3>
    <ul>
      <li>PAX Quiet signal and attention getter</li>
      <li>Review objective and success criteria with students</li>
      <li>Engage prior knowledge or connection to previous lesson</li>
    </ul>
    <h3>B. Vocabulary & Knowledge Building (5–8 min)</h3>
    <ul>
      <li>Introduce new vocabulary with student‑friendly definitions</li>
      <li>Use gestures, images or realia to reinforce understanding</li>
      <li>Have students Turn & Talk using the vocabulary in context</li>
      <li>Begin a PAX GBG mini‑round to reinforce focus and cooperation</li>
    </ul>
    <h3>C. ", (if d.subject = "Reading" then "Read‑Aloud / Decodable Reading" else "Concept Instruction / Guided Practice"),
    " (10–15 min)</h3>
    <ul>
      <li>Teacher modeling of ", (if d.subject = "Reading" then "fluency and comprehension strategies" else "mathematical concept or problem‑solving strategy"),
    "</li>
      <li>Pose text‑dependent or concept questions to check understanding</li>
      <li>Incorporate Turn & Talk and other CFUs (Cold call, whiteboard responses)</li>
      <li>Record student evidence responses to gauge progress</li>
    </ul>
    <h3>D. Skills Practice / Word Work (10–12 min)</h3>
    <ul>
      ",
    (if d.subject = "Reading"
      then "<li>Blending and segmenting sounds; dictation or spelling patterns</li><li>Small‑group adjustments based on student needs</li><li>PAX reinforcement (e.g., tootles)</li>"
      else "<li>Problem sets using manipulatives; fact fluency games</li><li>Small‑group adjustments to differentiate for skill levels</li><li>PAX reinforcement for on‑task math discussion</li>"),
    "
    </ul>
    <h3>E. Partner Practice (5–8 min)</h3>
    <ul>
      <li>Students engage in purposeful talk tasks</li>
      <li>", (if d.subject = "Reading" then "Rereading, retelling or comprehension tasks" else "Pair‑problem solving and explanation"),
    "</li>
      <li>Conduct GBG mini‑round #2 to maintain focus</li>
    </ul>
    <h3>F. Independent Practice / Stations (8–12 min)</h3>
    <p>Set up stations with tasks aligned to the lesson objective:</p>
    <ul>
      ",
    (if d.subject = "Reading"
      then "<li>Station 1: Decodable practice using Amplify games</li><li>Station 2: Vocabulary activity or graphic organizer</li><li>Station 3: Writing response to reading</li>"
      else "<li>Station 1: Problem solving with manipulatives</li><li>Station 2: Math games (e.g., number bonds, math facts)</li><li>Station 3: Application problems using Bluebonnet digital tools</li>"),
    "
      <li>Teacher small‑group: Provide guided instruction and feedback to targeted learners</li>
    </ul>
    <h3>G. Closure & Exit Ticket (5 min)</h3>
    <ul>
      <li>Review the learning goal and success criteria</li>
      <li>Ask students to reflect on how they met the goal; incorporate FSGPT</li>
      <li>Administer exit ticket aligned to the objective</li>
      <li>Celebrate with PAX tootles or quick recognition</li>
    </ul>
  ", "
    ",
    differentiationSection, "
    ",
    reflectionSection, "
    ",
    adminSection, "
    ",
    internalizationGuide, "
  " ]

/-! ### General lemmas about the string helpers -/

theorem string_eq_of_data {s t : String} (h : s.data = t.data) : s = t := by
  cases s with
  | mk a => cases t with
    | mk b => exact congrArg String.mk h

theorem data_ne_nil_of_ne_empty {s : String} (h : s ≠ "") : s.data ≠ [] := by
  intro hd
  exact h (string_eq_of_data (by simp [hd]))

theorem substr_refl (p : String) : Substr p p := List.infix_refl _

theorem substr_appendL {p a : String} (b : String) (h : Substr p a) : Substr p (a ++ b) := by
  unfold Substr at *
  rw [String.data_append]
  exact h.trans (List.infix_append [] a.data b.data)

theorem substr_appendR {p b : String} (a : String) (h : Substr p b) : Substr p (a ++ b) := by
  unfold Substr at *
  rw [String.data_append]
  obtain ⟨s, t, hst⟩ := h
  exact ⟨a.data ++ s, t, by rw [← hst]; simp [List.append_assoc]⟩

theorem substr_of_beginsWith {p s : String} (h : BeginsWith p s) : Substr p s := by
  obtain ⟨t, ht⟩ := h
  rw [ht]
  exact substr_appendL t (substr_refl p)

theorem beginsWith_append (p t : String) : BeginsWith p (p ++ t) := ⟨t, rfl⟩

theorem containsB_iff (p l : List Char) : containsB p l = true ↔ p <:+: l := by
  induction l with
  | nil => simp [containsB]
  | cons c cs ih =>
    simp [containsB, List.isPrefixOf_iff_prefix, ih, List.infix_cons_iff]

theorem infix_append_split {α : Type*} {p a b : List α} (h : p <:+: a ++ b) :
    p <:+: a ++ b.take (p.length - 1) ∨ p <:+: b := by
  obtain ⟨u, v, huv⟩ := h
  rw [List.append_assoc] at huv
  rcases List.append_eq_append_iff.mp huv with ⟨w, hw1, hw2⟩ | ⟨w, hw1, hw2⟩
  · rcases List.append_eq_append_iff.mp hw2 with ⟨x, hx1, hx2⟩ | ⟨x, hx1, hx2⟩
    · left
      have hpa : p <:+: a := ⟨u, x, by rw [hw1, hx1, List.append_assoc]⟩
      exact hpa.trans (List.infix_append [] a (b.take (p.length - 1)))
    · by_cases hw : w = []
      · right
        subst hw
        simp only [List.nil_append] at hx1
        rw [hx2, ← hx1]
        exact (List.prefix_append p v).isInfix
      · left
        have hwlen : 0 < w.length := List.length_pos.mpr hw
        have hxlen : x.length ≤ p.length - 1 := by
          rw [hx1, List.length_append]; omega
        have htake : b.take (p.length - 1) = x ++ v.take (p.length - 1 - x.length) := by
          rw [hx2, List.take_append_eq_append_take, List.take_of_length_le hxlen]
        exact ⟨u, v.take (p.length - 1 - x.length), by
          rw [htake, hw1, hx1]; simp [List.append_assoc]⟩
  · right
    exact ⟨w, v, by rw [hw2, List.append_assoc]⟩

theorem noSubstrChunks_sound {p : List Char} (hp : p ≠ []) :
    ∀ l : List String, noSubstrChunks p l = true → ¬ p <:+: chunkData l := by
  intro l
  induction l with
  | nil =>
    intro _ h
    simp only [chunkData] at h
    simp at h
    exact hp h
  | cons s rest ih =>
    intro hch hinf
    simp only [noSubstrChunks, Bool.and_eq_true, Bool.not_eq_true'] at hch
    obtain ⟨h1, h2⟩ := hch
    simp only [chunkData] at hinf
    rcases infix_append_split hinf with hL | hR
    · have hb := (containsB_iff p _).mpr hL
      rw [h1] at hb
      exact Bool.false_ne_true hb
    · exact ih h2 hR

set_option maxRecDepth 8000 in
theorem generatePlan_data_eq (d : PlanData) :
    (generatePlan d).data = chunkData (planPieces d) := by
  simp only [generatePlan, planPieces, infoSection, objSection, assessmentSection,
    materialsSection, frameSection, proceduresSection, chunkData,
    String.data_append, List.append_assoc, List.append_nil]

theorem generatePlan_not_substr {p : String} (hp : p ≠ "") (d : PlanData)
    (h : noSubstrChunks p.data (planPieces d) = true) : ¬ Substr p (generatePlan d) := by
  unfold Substr
  rw [generatePlan_data_eq]
  exact noSubstrChunks_sound (data_ne_nil_of_ne_empty hp) _ h

theorem substr_trans {a b c : String} (h1 : Substr a b) (h2 : Substr b c) : Substr a c :=
  List.IsInfix.trans h1 h2

theorem substr_sandwich {p s : String} (a b : String) (h : s = a ++ (p ++ b)) : Substr p s := by
  subst h
  exact substr_appendR a (substr_appendL b (substr_refl p))

theorem ne_empty_of_beginsWith {p s : String} (h : BeginsWith p s) (hp : p ≠ "") : s ≠ "" := by
  obtain ⟨t, rfl⟩ := h
  intro h0
  have hd := congrArg String.data h0
  rw [String.data_append] at hd
  rcases List.append_eq_nil.mp hd with ⟨h1, _⟩
  exact hp (string_eq_of_data (by simp [h1]))

theorem substr_chunkData {p s : String} {l : List String} (hs : s ∈ l)
    (h : p.data <:+: s.data) : p.data <:+: chunkData l := by
  induction l with
  | nil => cases hs
  | cons a rest ih =>
    simp only [chunkData]
    rcases List.mem_cons.mp hs with rfl | hmem
    · exact h.trans (List.infix_append [] s.data (chunkData rest))
    · obtain ⟨u, v, huv⟩ := ih hmem
      exact ⟨a.data ++ u, v, by rw [← huv]; simp [List.append_assoc]⟩

theorem substr_generatePlan_of_piece {p s : String} {d : PlanData}
    (hs : s ∈ planPieces d) (h : Substr p s) : Substr p (generatePlan d) := by
  unfold Substr
  rw [generatePlan_data_eq]
  exact substr_chunkData hs h

theorem replaceFirstAux_append_self (pat rep t : List Char) :
    replaceFirstAux pat rep (pat ++ t) = rep ++ t := by
  cases pat with
  | nil =>
    cases t with
    | nil => simp [replaceFirstAux]
    | cons c cs => simp [replaceFirstAux, List.isPrefixOf]
  | cons p ps =>
    have hpre : (p :: ps).isPrefixOf ((p :: ps) ++ t) = true :=
      List.isPrefixOf_iff_prefix.mpr (List.prefix_append _ _)
    simp only [List.cons_append] at hpre ⊢
    simp only [replaceFirstAux, hpre, if_true, List.length_cons, List.drop_succ_cons]
    rw [List.drop_left]

theorem jsReplace_append_self (p rep t : String) :
    jsReplace (p ++ t) p rep = rep ++ t := by
  apply string_eq_of_data
  show (jsReplace (p ++ t) p rep).data = (rep ++ t).data
  rw [String.data_append]
  show replaceFirstAux p.data rep.data (p ++ t).data = rep.data ++ t.data
  rw [String.data_append, replaceFirstAux_append_self]

theorem objective_beginsWith (r : LessonRequest) :
    BeginsWith "We will explore " (generateKidFriendlyObjective r) := by
  exact ⟨_, by simp only [generateKidFriendlyObjective, String.append_assoc]; rfl⟩

theorem product_beginsWith (r : LessonRequest) :
    BeginsWith "I will show what I learned in " (generateKidFriendlyProduct r) := by
  exact ⟨_, by simp only [generateKidFriendlyProduct, String.append_assoc]; rfl⟩

theorem jsOr_empty (b : String) : jsOr "" b = b := rfl

theorem truthy_of_ne {s : String} (h : s ≠ "") : truthy s = true := by
  simp [truthy, h]

theorem truthy_empty : truthy "" = false := rfl

theorem placeholder_of_blank {d : PlanData} (hu : d.unit = "") (hl : d.lesson = "") :
    Substr "___/___" (generatePlan d) := by
  apply substr_generatePlan_of_piece (s := jsOr (unitLessonDisplay d.unit d.lesson) "___/___")
  · simp only [planPieces]
    repeat first | exact List.mem_cons_self _ _ | apply List.mem_cons_of_mem
  · rw [hu, hl]
    exact substr_refl _

/-! ### Claim theorems -/

/-- C7: on each form submission the handler performs one synchronous render:
the display container's content becomes the generated plan string (built from
the trimmed standard and the auto-generated objective and product), the
display container is made visible (`display = "block"`), the print action is
made visible (`display = "inline-block"`), and every other piece of page
state is left unchanged. -/
theorem C7_submit_effects {σ : Type} (f : FormInput) (st : PageState σ) :
    (onSubmit f st).outputInnerHTML = submittedPlanHtml f ∧
    (onSubmit f st).outputDisplay = "block" ∧
    (onSubmit f st).printBtnDisplay = "inline-block" ∧
    (onSubmit f st).other = st.other ∧
    submittedPlanHtml f = generatePlan ⟨f.grade, f.subject, jsTrim f.standard,
      generateKidFriendlyObjective ⟨f.program, f.subject, f.unit, f.lesson, jsTrim f.standard⟩,
      generateKidFriendlyProduct ⟨f.program, f.subject, f.unit, f.lesson, jsTrim f.standard⟩,
      f.program, f.unit, f.lesson⟩ := by
  have h1 : onSubmit f st = { st with outputInnerHTML := submittedPlanHtml f, outputDisplay := "block", printBtnDisplay := "inline-block" } := rfl
  rw [h1]
  refine ⟨rfl, rfl, rfl, rfl, ?_⟩
  simp only [submittedPlanHtml]

/-- C5: the three generators are deterministic: two field-wise equal input
records produce equal output strings; the output depends on nothing but the
input record. -/
theorem C5_deterministic (d₁ d₂ : PlanData) (r₁ r₂ : LessonRequest)
    (hd : d₁.grade = d₂.grade ∧ d₁.subject = d₂.subject ∧ d₁.standard = d₂.standard ∧
      d₁.objective = d₂.objective ∧ d₁.product = d₂.product ∧ d₁.program = d₂.program ∧
      d₁.unit = d₂.unit ∧ d₁.lesson = d₂.lesson)
    (hr : r₁.program = r₂.program ∧ r₁.subject = r₂.subject ∧ r₁.unit = r₂.unit ∧
      r₁.lesson = r₂.lesson ∧ r₁.standard = r₂.standard) :
    generatePlan d₁ = generatePlan d₂ ∧
    generateKidFriendlyObjective r₁ = generateKidFriendlyObjective r₂ ∧
    generateKidFriendlyProduct r₁ = generateKidFriendlyProduct r₂ := by
  obtain ⟨hg, hs, hst, ho, hp, hpr, hu, hl⟩ := hd
  obtain ⟨rp, rs, ru, rl, rst⟩ := hr
  cases d₁; cases d₂; cases r₁; cases r₂
  simp only at hg hs hst ho hp hpr hu hl rp rs ru rl rst
  subst hg hs hst ho hp hpr hu hl rp rs ru rl rst
  exact ⟨rfl, rfl, rfl⟩

/-- C5 witness: the determinism theorem applied to two field-wise equal
concrete records. -/
theorem C5_deterministic_witness :
    generatePlan ⟨"2", "Math", "3.4A", "o", "p", "Bluebonnet", "1", "7"⟩ =
      generatePlan ⟨"2", "Math", "3.4A", "o", "p", "Bluebonnet", "1", "7"⟩ ∧
    generateKidFriendlyObjective ⟨"Amplify", "Reading", "2", "5", "RF.K.2"⟩ =
      generateKidFriendlyObjective ⟨"Amplify", "Reading", "2", "5", "RF.K.2"⟩ ∧
    generateKidFriendlyProduct ⟨"Amplify", "Reading", "2", "5", "RF.K.2"⟩ =
      generateKidFriendlyProduct ⟨"Amplify", "Reading", "2", "5", "RF.K.2"⟩ :=
  C5_deterministic _ _ _ _ ⟨rfl, rfl, rfl, rfl, rfl, rfl, rfl, rfl⟩ ⟨rfl, rfl, rfl, rfl, rfl⟩

/-- C2: for every input record whose subject is exactly "Math", the
Section 4 (Materials and Resources) fragment contains the literal
"Bluebonnet", and the rendered plan contains that fragment. -/
theorem C2_math_bluebonnet (d : PlanData) (h : d.subject = "Math") :
    Substr "Bluebonnet" (materialsSection d.program d.subject) ∧
    Substr (materialsSection d.program d.subject) (generatePlan d) := by
  constructor
  · rw [h]
    simp only [materialsSection]
    rw [if_neg (by decide : ¬ ("Math" : String) = "Reading")]
    apply substr_appendL
    apply substr_appendR
    decide
  · simp only [generatePlan]
    iterate 15 apply substr_appendL
    exact substr_appendR _ (substr_refl _)

/-- C2 witness: the theorem applied at a concrete record with subject
"Math". -/
theorem C2_math_bluebonnet_witness :
    Substr "Bluebonnet" (materialsSection "Eureka" "Math") ∧
    Substr (materialsSection "Eureka" "Math")
      (generatePlan ⟨"2", "Math", "", "", "", "Eureka", "1", "4"⟩) :=
  C2_math_bluebonnet ⟨"2", "Math", "", "", "", "Eureka", "1", "4"⟩ rfl

/-- C4: when the program field is blank, the program name used in the
generated objective and product is defaulted from the subject: "Amplify"
when the subject is "Reading" and "Bluebonnet" otherwise.  The product
begins with the default program name in its program slot, and the
objective contains it in its program slot. -/
theorem C4_default_program (r : LessonRequest) (h : r.program = "") :
    BeginsWith ("I will show what I learned in " ++
      ((if r.subject = "Reading" then "Amplify" else "Bluebonnet") ++ " by "))
      (generateKidFriendlyProduct r) ∧
    Substr (" from the " ++ ((if r.subject = "Reading" then "Amplify" else "Bluebonnet") ++ " "))
      (generateKidFriendlyObjective r) := by
  constructor
  · refine ⟨(if r.subject = "Reading" then "reading stories and playing learning games"
      else "solving problems and explaining our thinking") ++ ".", ?_⟩
    simp only [generateKidFriendlyProduct, h, jsOr_empty, String.append_assoc]
  · simp only [generateKidFriendlyObjective, h, jsOr_empty, String.append_assoc]
    apply substr_appendR
    apply substr_appendR
    exact substr_of_beginsWith ⟨_, by simp only [String.append_assoc]; rfl⟩

/-- C4 witness: the theorem applied at a concrete record with blank
program and subject "Math" (so the default is "Bluebonnet"). -/
theorem C4_default_program_witness :
    BeginsWith ("I will show what I learned in " ++
      ((if ("Math" : String) = "Reading" then "Amplify" else "Bluebonnet") ++ " by "))
      (generateKidFriendlyProduct ⟨"", "Math", "", "", ""⟩) ∧
    Substr (" from the " ++ ((if ("Math" : String) = "Reading" then "Amplify" else "Bluebonnet") ++ " "))
      (generateKidFriendlyObjective ⟨"", "Math", "", "", ""⟩) :=
  C4_default_program ⟨"", "Math", "", "", ""⟩ rfl

/-- C8 counterexample: the claim "the Unit/Lesson display contains a slash
iff both unit and lesson are non-blank" fails when the unit field itself
contains a slash: with unit "1/2" and blank lesson the display is "1/2". -/
theorem C8_counterexample :
    ¬ (Substr "/" (unitLessonDisplay "1/2" "") ↔ (("1/2" : String) ≠ "" ∧ ("" : String) ≠ "")) := by
  decide

/-- C8 amended: when the unit and lesson fields do not themselves contain a
slash, the Unit/Lesson display contains a "/" iff both fields are
non-blank; and for every record — slash-free or not — when exactly one of
the two fields is non-blank the display is exactly that single field's
value (no separator, no placeholder). -/
theorem C8_amended (unit lesson : String) :
    (¬ Substr "/" unit → ¬ Substr "/" lesson →
      (Substr "/" (unitLessonDisplay unit lesson) ↔ (unit ≠ "" ∧ lesson ≠ ""))) ∧
    (unit ≠ "" → lesson = "" → unitLessonDisplay unit lesson = unit) ∧
    (unit = "" → lesson ≠ "" → unitLessonDisplay unit lesson = lesson) := by
  by_cases hu0 : unit = "" <;> by_cases hl0 : lesson = ""
  · subst hu0 hl0
    refine ⟨?_, ?_, ?_⟩
    · intro _ _
      rw [show unitLessonDisplay "" "" = "" from rfl]
      decide
    · exact fun h _ => absurd rfl h
    · exact fun _ h => absurd rfl h
  · subst hu0
    have hd : unitLessonDisplay "" lesson = lesson := by
      simp [unitLessonDisplay, jsOr, jsAnd, truthy_empty, truthy_of_ne hl0]
    refine ⟨?_, ?_, ?_⟩
    · intro _ hl
      rw [hd]
      exact ⟨fun hs => absurd hs hl, fun hc => absurd rfl hc.1⟩
    · exact fun h _ => absurd rfl h
    · exact fun _ _ => hd
  · subst hl0
    have hd : unitLessonDisplay unit "" = unit := by
      simp [unitLessonDisplay, jsOr, jsAnd, truthy_empty, truthy_of_ne hu0]
    refine ⟨?_, ?_, ?_⟩
    · intro hu _
      rw [hd]
      exact ⟨fun hs => absurd hs hu, fun hc => absurd rfl hc.2⟩
    · exact fun _ _ => hd
    · exact fun h _ => absurd h hu0
  · have hd : unitLessonDisplay unit lesson = unit ++ "/" ++ lesson := by
      simp [unitLessonDisplay, jsOr, jsAnd, truthy_of_ne hu0, truthy_of_ne hl0]
    refine ⟨?_, ?_, ?_⟩
    · intro _ _
      rw [hd]
      refine iff_of_true ?_ ⟨hu0, hl0⟩
      exact substr_appendL lesson ⟨unit.data, [], by simp [String.data_append]⟩
    · exact fun _ h => absurd h hl0
    · exact fun h _ => absurd h hu0

/-- C8 amended witness: the amended theorem applied at unit "3" and lesson
"4", discharging the slash-free hypotheses of the iff part; the display
then contains the separator and both fields are non-blank. -/
theorem C8_amended_witness :
    Substr "/" (unitLessonDisplay "3" "4") ↔ (("3" : String) ≠ "" ∧ ("4" : String) ≠ "") :=
  (C8_amended "3" "4").1 (by decide) (by decide)

set_option maxRecDepth 8000 in
/-- C3: the generators are total: every input record (any strings in every
field) yields a non-empty output string, and blank fields degrade to the
literal placeholder or default text: the all-blank record still renders the
"___/___" placeholder, the objective falls back to "our lesson", and the
product falls back to the default program name. -/
theorem C3_no_failure :
    (∀ d : PlanData, generatePlan d ≠ "") ∧
    (∀ r : LessonRequest, generateKidFriendlyObjective r ≠ "") ∧
    (∀ r : LessonRequest, generateKidFriendlyProduct r ≠ "") ∧
    Substr "___/___" (generatePlan ⟨"", "", "", "", "", "", "", ""⟩) ∧
    Substr "our lesson" (generateKidFriendlyObjective ⟨"", "", "", "", ""⟩) ∧
    Substr "Bluebonnet" (generateKidFriendlyProduct ⟨"", "", "", "", ""⟩) := by
  refine ⟨?_, ?_, ?_, ?_, ?_, ?_⟩
  · intro d h0
    have hd := congrArg String.data h0
    rw [generatePlan_data_eq] at hd
    simp only [planPieces, chunkData] at hd
    rcases List.append_eq_nil.mp hd with ⟨h1, _⟩
    exact absurd h1 (by decide)
  · exact fun r => ne_empty_of_beginsWith (objective_beginsWith r) (by decide)
  · exact fun r => ne_empty_of_beginsWith (product_beginsWith r) (by decide)
  · exact placeholder_of_blank rfl rfl
  · decide
  · decide

theorem jsReplace_we_will (obj rep : String) (h : BeginsWith "We will explore " obj) :
    ∃ t, obj = "We will explore " ++ t ∧
      jsReplace obj "We will" rep = rep ++ (" explore " ++ t) := by
  obtain ⟨t, ht⟩ := h
  refine ⟨t, ht, ?_⟩
  rw [ht, show ("We will explore " : String) = "We will" ++ " explore " from rfl,
    String.append_assoc]
  exact jsReplace_append_self "We will" rep (" explore " ++ t)

set_option maxRecDepth 200000 in
/-- C1 counterexample: the claim says a blank unit field always renders the
"___/___" placeholder, regardless of the lesson field.  At the concrete
record with blank unit and lesson "5" the Unit/Lesson display is "5" and
the placeholder appears nowhere in the rendered plan. -/
theorem C1_counterexample :
    ¬ Substr "___/___" (generatePlan ⟨"1", "Math", "", "", "", "Bluebonnet", "", "5"⟩) :=
  generatePlan_not_substr (by decide) _ (by decide)

/-- C1 amended: the placeholder "___/___" is rendered when the unit field
and the lesson field are both blank (a blank unit alone does not suffice:
a non-blank lesson replaces the placeholder by the lesson value). -/
theorem C1_amended (d : PlanData) (hu : d.unit = "") (hl : d.lesson = "") :
    Substr "___/___" (generatePlan d) :=
  placeholder_of_blank hu hl

/-- C1 amended witness: the amended theorem applied at a concrete record
with both unit and lesson blank. -/
theorem C1_amended_witness :
    Substr "___/___" (generatePlan ⟨"1", "Math", "3.4A", "o", "p", "Bluebonnet", "", ""⟩) :=
  C1_amended ⟨"1", "Math", "3.4A", "o", "p", "Bluebonnet", "", ""⟩ rfl rfl

set_option maxRecDepth 8000 in
/-- C6: the subject field alone selects between exactly two prose variants
in every conditional fragment of `generatePlan`: any two subject values on
the same side of the predicate `subject = "Reading"` produce identical
conditional fragments (whatever the other interpolated fields are), the
"Reading" side renders the reading prose (the "Choral read accuracy"
check, "Vocabulary Cards", the phonics success criterion) and every other
subject renders the math prose ("Explain mathematical reasoning",
"Manipulatives / Math Tools"). -/
theorem C6_subject_branching (d : PlanData) (s₂ : String)
    (h : d.subject = "Reading" ↔ s₂ = "Reading") :
    successCriteria d.subject = successCriteria s₂ ∧
    assessmentSection d.subject = assessmentSection s₂ ∧
    (∀ p, materialsSection p d.subject = materialsSection p s₂) ∧
    (∀ p, proceduresSection p d.subject = proceduresSection p s₂) ∧
    (∀ o, objSection o d.subject = objSection o s₂) ∧
    (∀ o, frameSection o d.subject = frameSection o s₂) ∧
    (d.subject = "Reading" →
      Substr "Choral read accuracy" (generatePlan d) ∧
      Substr "Vocabulary Cards" (generatePlan d) ∧
      Substr "phonics" (generatePlan d)) ∧
    (d.subject ≠ "Reading" →
      Substr "Explain mathematical reasoning" (generatePlan d) ∧
      Substr "Manipulatives / Math Tools" (generatePlan d)) := by
  by_cases hr : d.subject = "Reading"
  · have hs2 : s₂ = "Reading" := h.mp hr
    refine ⟨by rw [hr, hs2], by rw [hr, hs2], fun p => by rw [hr, hs2],
      fun p => by rw [hr, hs2], fun o => by rw [hr, hs2], fun o => by rw [hr, hs2],
      fun _ => ⟨?_, ?_, ?_⟩, fun hns => absurd hr hns⟩
    · apply substr_generatePlan_of_piece
        (s := if d.subject = "Reading" then "<li><input type=\"checkbox\"/> Choral read accuracy</li>" else "")
      · simp only [planPieces]
        repeat first | exact List.mem_cons_self _ _ | apply List.mem_cons_of_mem
      · rw [hr]
        exact (containsB_iff _ _).mp (by rfl)
    · apply substr_generatePlan_of_piece
        (s := if d.subject = "Reading" then "<li>Vocabulary Cards</li><li>Decodables / Knowledge Text</li>"
          else "<li>Manipulatives / Math Tools</li><li>Eureka Math/Bluebonnet Materials</li>")
      · simp only [planPieces]
        repeat first | exact List.mem_cons_self _ _ | apply List.mem_cons_of_mem
      · rw [hr]
        exact (containsB_iff _ _).mp (by rfl)
    · apply substr_generatePlan_of_piece
        (s := String.join ((successCriteria d.subject).map (fun c => "<li>" ++ c ++ "</li>")))
      · simp only [planPieces]
        repeat first | exact List.mem_cons_self _ _ | apply List.mem_cons_of_mem
      · rw [hr]
        exact (containsB_iff _ _).mp (by rfl)
  · have hs2 : s₂ ≠ "Reading" := fun he => hr (h.mpr he)
    refine ⟨by simp [successCriteria, hr, hs2], by simp [assessmentSection, hr, hs2],
      fun p => by simp [materialsSection, hr, hs2], fun p => by simp [proceduresSection, hr, hs2],
      fun o => by simp [objSection, successCriteria, hr, hs2],
      fun o => by simp [frameSection, successCriteria, hr, hs2],
      fun hre => absurd hre hr, fun _ => ⟨?_, ?_⟩⟩
    · apply substr_generatePlan_of_piece
        (s := String.join ((successCriteria d.subject).map (fun c => "<li>" ++ c ++ "</li>")))
      · simp only [planPieces]
        repeat first | exact List.mem_cons_self _ _ | apply List.mem_cons_of_mem
      · simp only [successCriteria]
        rw [if_neg hr]
        exact (containsB_iff _ _).mp (by rfl)
    · apply substr_generatePlan_of_piece
        (s := if d.subject = "Reading" then "<li>Vocabulary Cards</li><li>Decodables / Knowledge Text</li>"
          else "<li>Manipulatives / Math Tools</li><li>Eureka Math/Bluebonnet Materials</li>")
      · simp only [planPieces]
        repeat first | exact List.mem_cons_self _ _ | apply List.mem_cons_of_mem
      · rw [if_neg hr]
        exact (containsB_iff _ _).mp (by rfl)

/-- C6 witness: the theorem applied at a record with subject "Math" and
second subject "Science" (both on the non-"Reading" side). -/
theorem C6_subject_branching_witness :
    successCriteria "Math" = successCriteria "Science" :=
  (C6_subject_branching ⟨"1", "Math", "", "", "", "Bluebonnet", "", ""⟩ "Science" (by decide)).1

set_option maxRecDepth 8000 in
/-- C9: the generated objective always begins with the exact prefix
"We will explore ", so the first-occurrence replacement of "We will"
rewrites the very front of the string: the replaced objective begins with
"Students will explore " (resp. "Today I will explore "), and in Section 2
of the plan rendered by the submit handler the Lesson Objective paragraph
contains "Students will explore" and the Student-Friendly Learning Goal
contains "Today I will explore" right after the opening quote — for every
form input, including inputs whose fields themselves contain "We will". -/
theorem C9_lesson_frame (r : LessonRequest) (f : FormInput) :
    BeginsWith "We will explore " (generateKidFriendlyObjective r) ∧
    BeginsWith "Students will explore "
      (jsReplace (generateKidFriendlyObjective r) "We will" "Students will") ∧
    BeginsWith "Today I will explore "
      (jsReplace (generateKidFriendlyObjective r) "We will" "Today I will") ∧
    Substr "<p><strong>Lesson Objective:</strong> Students will explore "
      (submittedPlanHtml f) ∧
    Substr "Learning Goal:</strong> \"Today I will explore "
      (submittedPlanHtml f) := by
  obtain ⟨t, -, hrep1⟩ :=
    jsReplace_we_will (generateKidFriendlyObjective r) "Students will" (objective_beginsWith r)
  obtain ⟨t2, -, hrep2⟩ :=
    jsReplace_we_will (generateKidFriendlyObjective r) "Today I will" (objective_beginsWith r)
  refine ⟨objective_beginsWith r, ?_, ?_, ?_, ?_⟩
  · rw [hrep1]
    exact ⟨t, by rw [show ("Students will explore " : String) = "Students will" ++ " explore "
      from rfl, String.append_assoc]⟩
  · rw [hrep2]
    exact ⟨t2, by rw [show ("Today I will explore " : String) = "Today I will" ++ " explore "
      from rfl, String.append_assoc]⟩
  · obtain ⟨u, -, hrepU⟩ := jsReplace_we_will
      (generateKidFriendlyObjective ⟨f.program, f.subject, f.unit, f.lesson, jsTrim f.standard⟩)
      "Students will" (objective_beginsWith _)
    simp only [submittedPlanHtml, generatePlan]
    iterate 19 apply substr_appendL
    apply substr_appendR
    simp only [objSection]
    iterate 5 apply substr_appendL
    rw [hrepU]
    rw [show ("
    <h2>Section 2 — Objective, Learning Goals & Success Criteria</h2>
    <p><strong>Lesson Objective:</strong> " : String) = "
    <h2>Section 2 — Objective, Learning Goals & Success Criteria</h2>
    " ++ "<p><strong>Lesson Objective:</strong> " from rfl,
      show ("<p><strong>Lesson Objective:</strong> Students will explore " : String) =
        "<p><strong>Lesson Objective:</strong> " ++ ("Students will" ++ " explore ") from rfl]
    simp only [String.append_assoc]
    apply substr_appendR
    exact substr_of_beginsWith ⟨u, by simp only [String.append_assoc]⟩
  · obtain ⟨u2, -, hrepU2⟩ := jsReplace_we_will
      (generateKidFriendlyObjective ⟨f.program, f.subject, f.unit, f.lesson, jsTrim f.standard⟩)
      "Today I will" (objective_beginsWith _)
    simp only [submittedPlanHtml, generatePlan]
    iterate 19 apply substr_appendL
    apply substr_appendR
    simp only [objSection]
    iterate 3 apply substr_appendL
    rw [hrepU2]
    rw [show (" (include decoding, comprehension, vocabulary, skills as appropriate).</p>
    <p><strong>Student‑Friendly Learning Goal:</strong> \"" : String) =
      " (include decoding, comprehension, vocabulary, skills as appropriate).</p>
    <p><strong>Student‑Friendly " ++ "Learning Goal:</strong> \"" from rfl,
      show ("Learning Goal:</strong> \"Today I will explore " : String) =
        "Learning Goal:</strong> \"" ++ ("Today I will" ++ " explore ") from rfl]
    simp only [String.append_assoc]
    apply substr_appendR
    apply substr_appendR
    apply substr_appendR
    exact substr_of_beginsWith ⟨u2, by simp only [String.append_assoc]⟩

set_option maxRecDepth 8000 in
/-- C10 counterexample: the claim that the rendered plan never contains the
activities prose of `getReadingDetails`/`getMathDetails` fails for records
whose own fields contain that prose: with the grade field set to the
reading activities text, the Overview line of the plan contains it. -/
theorem C10_counterexample :
    Substr getReadingDetails.activities
      (generatePlan ⟨getReadingDetails.activities, "Math", "", "", "", "", "", ""⟩) := by
  apply substr_generatePlan_of_piece (s := getReadingDetails.activities)
  · simp only [planPieces]
    repeat first | exact List.mem_cons_self _ _ | apply List.mem_cons_of_mem
  · exact substr_refl _

set_option maxRecDepth 200000 in
/-- C10 amended: the `subjectDetails` value (source line 60) never
influences the output — `generatePlan` equals the variant with the
computation removed on every record — and for the all-blank input record
the rendered plan contains neither details function's activities text, nor
even their `"Amplify Reading Integration"` / `"Bluebonnet Math
Integration"` headings.  (Containment cannot be excluded from the input
fields alone short of blanking them: interpolated fields can assemble the
prose across a boundary, e.g. grade "Amplify" with subject "Reading
Integration" renders the heading in the Grade/Subject row.) -/
theorem C10_amended :
    (∀ d : PlanData, generatePlan d = generatePlanNoDetails d) ∧
    ¬ Substr "Amplify Reading Integration" (generatePlan ⟨"", "", "", "", "", "", "", ""⟩) ∧
    ¬ Substr "Bluebonnet Math Integration" (generatePlan ⟨"", "", "", "", "", "", "", ""⟩) ∧
    ¬ Substr getReadingDetails.activities (generatePlan ⟨"", "", "", "", "", "", "", ""⟩) ∧
    ¬ Substr getMathDetails.activities (generatePlan ⟨"", "", "", "", "", "", "", ""⟩) := by
  have hAmp : ¬ Substr "Amplify Reading Integration" (generatePlan ⟨"", "", "", "", "", "", "", ""⟩) :=
    generatePlan_not_substr (by decide) _ (by decide)
  have hBlu : ¬ Substr "Bluebonnet Math Integration" (generatePlan ⟨"", "", "", "", "", "", "", ""⟩) :=
    generatePlan_not_substr (by decide) _ (by decide)
  refine ⟨fun d => rfl, hAmp, hBlu, ?_, ?_⟩
  · intro hact
    exact hAmp (substr_trans ((containsB_iff _ _).mp (by rfl)) hact)
  · intro hact
    exact hBlu (substr_trans ((containsB_iff _ _).mp (by rfl)) hact)

end LessonPlanApp
